import Mathlib

/-!
# Verification of the pollmph trend-smoothing core

This file embeds the moving-average ("TrendSmoother") logic of the pollmph
dashboard and settles the spec's claims about it.

Two implementations of the smoothing transform exist in the repository and
are both embedded here:

* `calculateMovingAverage` — from
  `frontend/src/components/PulseDashboard.jsx` (lines 37–65): sorts a copy
  of the input ascending by `date_generated`, keeps the raw values as the
  smoothed values for the first `windowSize - 1` points, and otherwise sums
  the trailing `windowSize` values, divides by `windowSize` and rounds the
  final mean to three decimal digits via `Number(x.toFixed(3))`.

* `calculateMovingAverageDetail` — from
  `frontend/src/components/PropositionDetail.jsx` (lines 67–73): does not
  sort, uses a hard-coded window of 7, returns `null` for every index below
  6, and returns the unrounded mean `sum / 7` otherwise.

Numbers are modelled as exact rationals (`ℚ`).  All value-level claims
settled here exercise inputs on which IEEE-754 double evaluation and exact
rational evaluation agree; the one divergence (division by a zero window,
which is `NaN` in JavaScript and `0` in `ℚ`) is never relied upon for a
value-level statement — only the structural fact that the function returns
a full-length output is used there.  Dates are modelled as natural-number
day indices (the JavaScript comparator `new Date(a) - new Date(b)` is a
numeric comparison of time values).  The locale date formatting used for
the cosmetic `shortDate` field is modelled abstractly as the decimal
numeral of the day index; no claim depends on its text.
-/

/-- One row of the `sentiments` table as consumed by the dashboard
(`Observation` in the spec's data model).  `rationale_consensus`,
`rationale_attention` and `movement_analysis` are the opaque free-text
fields passed through unchanged. -/
structure Observation where
  id : ℕ
  proposition_id : String
  date_generated : ℕ
  consensus_value : ℚ
  attention_value : ℚ
  rationale_consensus : String
  rationale_attention : String
  movement_analysis : String
deriving DecidableEq, Repr, Inhabited

/-- Output unit of the PulseDashboard transform (`SmoothedPoint` in the
spec): the spread `{ ...val, shortDate, ma_consensus, ma_attention }`
keeps every input field (the `obs` component) and adds the formatted date
and the two smoothed fields. -/
structure SmoothedPoint where
  obs : Observation
  shortDate : String
  ma_consensus : ℚ
  ma_attention : ℚ
deriving DecidableEq, Repr

/-- `Number(x.toFixed(3))`: round to three decimal digits (half away from
zero on positive inputs, which is what `round` does on nonnegative
rationals). -/
def round3 (q : ℚ) : ℚ := (round (q * 1000) : ℤ) / 1000

/-- `Array.prototype.slice(start, stop)` for the nonnegative indices the
embedded code reaches (every reachable call has `0 ≤ start`); clamping
past the end and the empty result for `start ≥ stop` match JavaScript. -/
def jsSlice {α : Type} (l : List α) (start stop : ℤ) : List α :=
  (l.drop start.toNat).take (stop.toNat - start.toNat)

/-- Abstract stand-in for `toLocaleDateString` on the day index. -/
def shortDateOf (d : ℕ) : String := toString d

/-- The sort comparator `(a, b) => new Date(a.date_generated) - new
Date(b.date_generated)`: orders ascending by date. -/
def byDate (a b : Observation) : Bool :=
  decide (a.date_generated ≤ b.date_generated)

/-- `[...data].sort(byDate)`: a stable sort of a copy of the input,
ascending by `date_generated`. -/
def sortByDate (data : List Observation) : List Observation :=
  data.mergeSort byDate

/-- `calculateMovingAverage` from `PulseDashboard.jsx` lines 37–65 (the
source gives `windowSize` the default value 7; every call site passes 7). -/
def calculateMovingAverage (data : List Observation) (windowSize : ℤ) :
    List SmoothedPoint :=
  let sortedData := sortByDate data
  sortedData.mapIdx fun idx val =>
    let base : SmoothedPoint :=
      { obs := val
        shortDate := shortDateOf val.date_generated
        ma_consensus := val.consensus_value
        ma_attention := val.attention_value }
    if (idx : ℤ) < windowSize - 1 then base
    else
      let window := jsSlice sortedData ((idx : ℤ) - windowSize + 1) ((idx : ℤ) + 1)
      let sumC := window.foldl (fun acc curr => acc + curr.consensus_value) 0
      let sumA := window.foldl (fun acc curr => acc + curr.attention_value) 0
      { base with
          ma_consensus := round3 (sumC / (windowSize : ℚ))
          ma_attention := round3 (sumA / (windowSize : ℚ)) }

/-- `calculateMovingAverage` from `PropositionDetail.jsx` lines 67–73: the
field name `key` is modelled as a projection out of the record. -/
def calculateMovingAverageDetail (data : List Observation)
    (key : Observation → ℚ) : List (Option ℚ) :=
  data.mapIdx fun index _ =>
    if index < 6 then none
    else
      some ((jsSlice data ((index : ℤ) - 6) ((index : ℤ) + 1)).foldl
        (fun acc curr => acc + key curr) 0 / 7)

/-- `const isMajority = maConsensus >= 0.5;` — `CustomTooltip`,
`PulseDashboard.jsx` line 77. -/
def isMajorityTooltip (maConsensus : ℚ) : Bool :=
  decide (maConsensus ≥ (0.5 : ℚ))

/-- `const isMajority = currentMA >= 0.5;` — `PropositionCard`,
`PulseDashboard.jsx` line 131. -/
def isMajorityCard (currentMA : ℚ) : Bool :=
  decide (currentMA ≥ (0.5 : ℚ))

/-- `consensusMA` in `PropositionDetail.jsx` is stored on the percent
scale: `calculateMovingAverage(sentiments, key)[index] * 100`. -/
def detailPercent (ma : ℚ) : ℚ := ma * 100

/-- `const isMajority = consensusMA >= 50;` — `PropositionDetail.jsx` line
104; `consensusMA` may be absent (`null`/`undefined`), in which case the
JavaScript comparison yields `false`. -/
def isMajorityDetail (consensusMA : Option ℚ) : Bool :=
  match consensusMA with
  | some x => decide (x ≥ (50 : ℚ))
  | none => false

/-!
## Heap model

`calculateMovingAverage` is called on an array of heap-allocated row
objects.  To settle the non-mutation claim we re-express it over an
explicit object heap: a heap is a list of cells, a reference is an index
into it, and allocating a fresh object appends a cell.  The JavaScript
body reads the input rows through their references (`[...data]` copies
only the array of references; `.sort` reorders that copy in place; the
arrow function passed to `.map` builds a fresh object by spreading), so
its heap effect is exactly: read the observations, append freshly
allocated result objects, leave every pre-existing cell untouched. -/

/-- A heap cell: either a raw row object or a smoothed-point object. -/
inductive HVal where
  | obs : Observation → HVal
  | pt : SmoothedPoint → HVal
deriving DecidableEq, Repr

instance : Inhabited SmoothedPoint :=
  ⟨{ obs := default, shortDate := "", ma_consensus := 0, ma_attention := 0 }⟩

/-- Read an observation cell (junk `default` on a dangling or mistyped
reference; theorems that need determinate reads hypothesise validity). -/
def derefObs (h : List HVal) (r : ℕ) : Observation :=
  match h[r]? with
  | some (HVal.obs o) => o
  | _ => default

/-- Read a smoothed-point cell. -/
def derefPt (h : List HVal) (r : ℕ) : SmoothedPoint :=
  match h[r]? with
  | some (HVal.pt p) => p
  | _ => default

/-- Heap-level form of `calculateMovingAverage`: given the heap and the
caller's array of references, return the extended heap and the array of
references to the freshly allocated output objects. -/
def calculateMovingAverageHeap (h : List HVal) (refs : List ℕ) (W : ℤ) :
    List HVal × List ℕ :=
  let pts := calculateMovingAverage (refs.map (derefObs h)) W
  (h ++ pts.map HVal.pt, (List.range pts.length).map (fun i => h.length + i))

/-!
## Concrete inputs used by witnesses and counterexamples
-/

/-- A sentiment row with day index `d` and the given scores. -/
def mkObs (d : ℕ) (c a : ℚ) : Observation :=
  { id := d, proposition_id := "p1", date_generated := d
    consensus_value := c, attention_value := a
    rationale_consensus := "rc", rationale_attention := "ra"
    movement_analysis := "mv" }

/-- The spec's concrete scenario: 10 consecutive daily observations with
consensus values 0.1 … 1.0 (attention values taken equal). -/
def c7Input : List Observation :=
  [mkObs 0 (1/10) (1/10), mkObs 1 (2/10) (2/10), mkObs 2 (3/10) (3/10),
   mkObs 3 (4/10) (4/10), mkObs 4 (5/10) (5/10), mkObs 5 (6/10) (6/10),
   mkObs 6 (7/10) (7/10), mkObs 7 (8/10) (8/10), mkObs 8 (9/10) (9/10),
   mkObs 9 (10/10) (10/10)]

/-- A single observation whose raw value 0.1234 has more than three
decimal digits. -/
def c6Obs : Observation := mkObs 0 (617/5000) (617/5000)

/-- Seven consecutive daily observations whose 7-day mean 1/70 is not a
three-decimal number. -/
def c1DetailInput : List Observation :=
  [mkObs 0 0 0, mkObs 1 0 0, mkObs 2 0 0, mkObs 3 0 0, mkObs 4 0 0,
   mkObs 5 0 0, mkObs 6 (1/10) (1/10)]

/-- Eight observations with pairwise-distinct dates; only the last day
has a nonzero consensus value. -/
def c3Input : List Observation :=
  [mkObs 0 0 0, mkObs 1 0 0, mkObs 2 0 0, mkObs 3 0 0, mkObs 4 0 0,
   mkObs 5 0 0, mkObs 6 0 0, mkObs 7 1 1]

/-- A one-cell heap holding a single observation row. -/
def c10Heap : List HVal := [HVal.obs (mkObs 0 (1/2) (1/2))]

/-!
## Helper lemmas
-/

theorem foldl_add_key (key : Observation → ℚ) (l : List Observation) (b : ℚ) :
    l.foldl (fun acc curr => acc + key curr) b = b + (l.map key).sum := by
  induction l generalizing b with
  | nil => simp
  | cons x xs ih => simp [ih, add_assoc]

theorem byDate_trans : ∀ a b c : Observation,
    byDate a b = true → byDate b c = true → byDate a c = true := by
  intro a b c hab hbc
  simp only [byDate, decide_eq_true_eq] at *
  exact le_trans hab hbc

theorem byDate_total : ∀ a b : Observation, (byDate a b || byDate b a) = true := by
  intro a b
  simp only [byDate, Bool.or_eq_true, decide_eq_true_eq]
  exact Nat.le_total _ _

theorem sortByDate_perm (data : List Observation) :
    (sortByDate data).Perm data :=
  List.mergeSort_perm data byDate

theorem sortByDate_length (data : List Observation) :
    (sortByDate data).length = data.length :=
  List.length_mergeSort data

theorem sortByDate_pairwise (data : List Observation) :
    List.Pairwise (fun a b => a.date_generated ≤ b.date_generated)
      (sortByDate data) := by
  have h := List.sorted_mergeSort byDate_trans byDate_total data
  exact h.imp fun hab => by
    simpa [byDate, decide_eq_true_eq] using hab

theorem sortByDate_eq_self {data : List Observation}
    (h : List.Pairwise (fun a b => a.date_generated ≤ b.date_generated) data) :
    sortByDate data = data :=
  List.mergeSort_of_sorted (h.imp fun hab => by
    simpa [byDate, decide_eq_true_eq] using hab)

theorem calcMA_length (data : List Observation) (W : ℤ) :
    (calculateMovingAverage data W).length = data.length := by
  simp [calculateMovingAverage, List.length_mapIdx, sortByDate_length]

theorem calcMA_map_obs (data : List Observation) (W : ℤ) :
    (calculateMovingAverage data W).map SmoothedPoint.obs = sortByDate data := by
  apply List.ext_getElem
  · simp [calcMA_length, sortByDate_length]
  · intro n h₁ h₂
    simp only [List.getElem_map, calculateMovingAverage, List.getElem_mapIdx]
    split <;> rfl

/-- C1 (amended): restricted to the PulseDashboard transform
(`PropositionDetail.jsx`'s variant returns the unrounded mean, see the
counterexample): for a date-sorted input, a window `W ≥ 1` and an index
`i ≥ W - 1`, the smoothed consensus at `i` is the arithmetic mean of
`consensus_value` over indices `i-W+1 … i` rounded to three decimal
digits, and the smoothed attention is the same computation over
`attention_value`; rounding is applied once, to the final mean. -/
theorem C1_pulse_windowed_mean_rounded (data : List Observation)
    (hs : List.Pairwise (fun a b => a.date_generated ≤ b.date_generated) data)
    (W : ℕ) (hW : 1 ≤ W) (i : ℕ) (hiW : W - 1 ≤ i) (hlen : i < data.length) :
    ((calculateMovingAverage data (W : ℤ)).map SmoothedPoint.ma_consensus)[i]? =
      some (round3 ((((data.drop (i + 1 - W)).take W).map
        Observation.consensus_value).sum / (W : ℚ))) ∧
    ((calculateMovingAverage data (W : ℤ)).map SmoothedPoint.ma_attention)[i]? =
      some (round3 ((((data.drop (i + 1 - W)).take W).map
        Observation.attention_value).sum / (W : ℚ))) := by
  have hsort : sortByDate data = data := sortByDate_eq_self hs
  have hcond : ¬ ((i : ℤ) < (W : ℤ) - 1) := by omega
  have hstart : ((i : ℤ) - (W : ℤ) + 1).toNat = i + 1 - W := by omega
  have hstop : ((i : ℤ) + 1).toNat = i + 1 := by omega
  have htake : i + 1 - (i + 1 - W) = W := by omega
  constructor <;>
  · simp only [calculateMovingAverage, hsort, List.getElem?_map,
      List.getElem?_mapIdx, List.getElem?_eq_getElem hlen, Option.map_some']
    rw [if_neg hcond]
    simp only [jsSlice, hstart, hstop, htake, foldl_add_key, zero_add]
    norm_cast

/-- C2 (amended): restricted to the PulseDashboard transform
(`PropositionDetail.jsx`'s variant instead returns `null` for every index
below 6, see the counterexample): for a date-sorted input, a window
`W ≥ 1` and an index `i < W - 1`, the output point carries the raw
`consensus_value` and `attention_value` unchanged as its smoothed fields
(cold-start passthrough), and — the output type being `null`-free — no
PulseDashboard output element carries a missing smoothed field. -/
theorem C2_pulse_cold_start_passthrough (data : List Observation)
    (hs : List.Pairwise (fun a b => a.date_generated ≤ b.date_generated) data)
    (W : ℕ) (hW : 1 ≤ W) (i : ℕ) (hi : i < W - 1) (hlen : i < data.length) :
    (calculateMovingAverage data (W : ℤ))[i]? =
      some { obs := data.get ⟨i, hlen⟩
             shortDate := shortDateOf (data.get ⟨i, hlen⟩).date_generated
             ma_consensus := (data.get ⟨i, hlen⟩).consensus_value
             ma_attention := (data.get ⟨i, hlen⟩).attention_value } := by
  have hsort : sortByDate data = data := sortByDate_eq_self hs
  have hcond : (i : ℤ) < (W : ℤ) - 1 := by omega
  simp only [calculateMovingAverage, hsort, List.getElem?_mapIdx,
    List.getElem?_eq_getElem hlen, Option.map_some']
  rw [if_pos hcond]
  rfl

theorem sortByDate_strict {l : List Observation}
    (hl : (l.map Observation.date_generated).Nodup) :
    List.Pairwise (fun a b : Observation =>
      a.date_generated < b.date_generated) (sortByDate l) := by
  have h1 := sortByDate_pairwise l
  have h2 : ((sortByDate l).map Observation.date_generated).Nodup :=
    (((sortByDate_perm l).map Observation.date_generated).nodup_iff).mpr hl
  have h3 : List.Pairwise (fun a b : Observation =>
      a.date_generated ≠ b.date_generated) (sortByDate l) :=
    List.pairwise_map.mp h2
  exact (h1.and h3).imp fun hab => lt_of_le_of_ne hab.1 hab.2

theorem sortByDate_perm_invariant {data data' : List Observation}
    (hperm : data.Perm data')
    (hnodup : (data.map Observation.date_generated).Nodup) :
    sortByDate data = sortByDate data' := by
  have hnodup' : (data'.map Observation.date_generated).Nodup :=
    ((hperm.map Observation.date_generated).nodup_iff).mp hnodup
  have hperm2 : (sortByDate data).Perm (sortByDate data') :=
    ((sortByDate_perm data).trans hperm).trans (sortByDate_perm data').symm
  haveI : IsAntisymm Observation (fun a b : Observation =>
      a.date_generated < b.date_generated) :=
    ⟨fun a b h1 h2 => absurd h2 (Nat.lt_asymm h1)⟩
  exact List.eq_of_perm_of_sorted hperm2 (sortByDate_strict hnodup)
    (sortByDate_strict hnodup')

theorem derefObs_append_of_lt (h t : List HVal) (r : ℕ) (hr : r < h.length) :
    derefObs (h ++ t) r = derefObs h r := by
  simp [derefObs, List.getElem?_append_left hr]

theorem calcMAHeap_readout (h : List HVal) (refs : List ℕ) (W : ℤ) :
    (calculateMovingAverageHeap h refs W).2.map
        (derefPt (calculateMovingAverageHeap h refs W).1) =
      calculateMovingAverage (refs.map (derefObs h)) W := by
  simp only [calculateMovingAverageHeap, List.map_map]
  apply List.ext_getElem
  · simp
  · intro n h1 h2
    simp only [List.getElem_map, List.getElem_range, Function.comp_apply]
    have hn : n < (calculateMovingAverage (refs.map (derefObs h)) W).length := h2
    simp [derefPt, List.getElem?_append_right (Nat.le_add_right h.length n),
      List.getElem?_map, List.getElem?_eq_getElem hn]

/-!
## Claim theorems, counterexamples and witnesses
-/

/-- C1 witness: the amended C1 theorem applied to the spec's concrete
scenario at window 7 and index 6. -/
theorem C1_pulse_windowed_mean_rounded_witness :
    ((calculateMovingAverage c7Input 7).map SmoothedPoint.ma_consensus)[6]? =
      some (round3 ((((c7Input.drop 0).take 7).map
        Observation.consensus_value).sum / 7)) ∧
    ((calculateMovingAverage c7Input 7).map SmoothedPoint.ma_attention)[6]? =
      some (round3 ((((c7Input.drop 0).take 7).map
        Observation.attention_value).sum / 7)) := by
  have h := C1_pulse_windowed_mean_rounded c7Input (by decide) 7 (by norm_num)
    6 (by norm_num) (by decide)
  simpa using h

/-- C1 counterexample: the PropositionDetail variant of the smoothing
transform does not round the mean to three decimal digits — on seven
observations with values `[0,0,0,0,0,0,0.1]` it yields the unrounded mean
`1/70` at index 6, which differs from `1/70` rounded to three decimals. -/
theorem C1_counterexample_detail_unrounded :
    (calculateMovingAverageDetail c1DetailInput Observation.consensus_value)[6]? =
      some (some (1/70)) ∧ round3 (1/70) ≠ (1/70 : ℚ) := by
  constructor
  · simp [calculateMovingAverageDetail, c1DetailInput, mkObs, jsSlice,
      List.mapIdx_cons, List.mapIdx_nil]
    norm_num
  · norm_num [round3, round_eq, Int.floor_eq_iff]

/-- C2 witness: the amended C2 theorem applied to the concrete scenario at
window 7 and index 0. -/
theorem C2_pulse_cold_start_passthrough_witness :
    (calculateMovingAverage c7Input 7)[0]? =
      some { obs := mkObs 0 (1/10) (1/10), shortDate := shortDateOf 0
             ma_consensus := 1/10, ma_attention := 1/10 } := by
  have h := C2_pulse_cold_start_passthrough c7Input (by decide) 7 (by norm_num)
    0 (by norm_num) (by decide)
  simpa [c7Input, mkObs] using h

/-- C2 counterexample: the PropositionDetail variant of the smoothing
transform does produce `null` smoothed values — on a single observation
its output is `[null]`. -/
theorem C2_counterexample_detail_null :
    calculateMovingAverageDetail [c6Obs] Observation.consensus_value =
      [none] := by
  simp [calculateMovingAverageDetail, List.mapIdx_cons]

/-- C3 (amended): restricted to the PulseDashboard transform, which
re-sorts ascending by date itself (the PropositionDetail variant performs
no sort and is order-sensitive, see the counterexample): for inputs with
pairwise-distinct dates, applying the transform to any permutation of the
input yields the identical output sequence. -/
theorem C3_pulse_sort_invariance (data data' : List Observation)
    (hperm : data.Perm data')
    (hnodup : (data.map Observation.date_generated).Nodup) (W : ℤ) :
    calculateMovingAverage data W = calculateMovingAverage data' W := by
  simp only [calculateMovingAverage, sortByDate_perm_invariant hperm hnodup]

/-- C3 witness: the amended C3 theorem applied to a concrete 8-element
input and its reversal. -/
theorem C3_pulse_sort_invariance_witness :
    calculateMovingAverage c3Input 7 =
      calculateMovingAverage c3Input.reverse 7 :=
  C3_pulse_sort_invariance c3Input c3Input.reverse
    (List.reverse_perm c3Input).symm (by decide) 7

/-- C3 counterexample: the PropositionDetail variant of the smoothing
transform is not invariant under permutation of its input — on an
8-element input with pairwise-distinct dates (witnessed by the `Nodup`
conjunct), reversing the input changes the output. -/
theorem C3_counterexample_detail_order_sensitive :
    (c3Input.map Observation.date_generated).Nodup ∧
    c3Input.reverse.Perm c3Input ∧
    calculateMovingAverageDetail c3Input.reverse Observation.consensus_value ≠
      calculateMovingAverageDetail c3Input Observation.consensus_value := by
  refine ⟨by decide, List.reverse_perm c3Input, ?_⟩
  intro h
  have h6 := congrArg (fun l => l[6]?) h
  simp [calculateMovingAverageDetail, c3Input, mkObs, jsSlice,
    List.mapIdx_cons, List.mapIdx_nil] at h6

/-- C4 (amended): for a window `W < 1` the transform performs no
validation at all — it raises no invalid-argument failure and returns a
full output of the same length as the input, whose elements all take the
else branch over an empty slice (so the mean is a division of 0 by the
given invalid window: `NaN` in JavaScript for `W = 0`, `-0` for negative
`W`); the window is not clamped to a valid value. -/
theorem C4_window_lt_one_full_output (data : List Observation) (W : ℤ)
    (hW : W < 1) :
    (calculateMovingAverage data W).length = data.length :=
  calcMA_length data W

/-- C4 witness: the amended C4 theorem applied at window 0 to a singleton
input. -/
theorem C4_window_lt_one_full_output_witness :
    (calculateMovingAverage [mkObs 0 (1/2) (1/2)] 0).length = 1 := by
  simpa using C4_window_lt_one_full_output [mkObs 0 (1/2) (1/2)] 0
    (by norm_num)

/-- C4 counterexample: at window `-1` on a singleton input the transform
signals no failure and produces a complete output element (with smoothed
fields computed from the empty slice, not clamped to the raw value
`1/2`), contradicting "signals an invalid-argument failure and produces
no partial output". -/
theorem C4_counterexample_no_failure_signal :
    calculateMovingAverage [mkObs 0 (1/2) (1/2)] (-1) =
      [{ obs := mkObs 0 (1/2) (1/2), shortDate := shortDateOf 0
         ma_consensus := 0, ma_attention := 0 }] := by
  have hs : sortByDate [mkObs 0 (1/2) (1/2)] = [mkObs 0 (1/2) (1/2)] :=
    sortByDate_eq_self (by decide)
  simp only [calculateMovingAverage, hs]
  simp [mkObs, jsSlice, List.mapIdx_cons, round3, round_eq]
  norm_num

/-- C5: for every window `W ≥ 1` and every input (including the empty
one), the PulseDashboard transform returns exactly as many elements as
the input, in ascending date order, and maps the empty input to the empty
output; the embedded function is total, so no error is raised.  (The
length and order facts hold for every `W`; the hypothesis mirrors the
claim's scope.) -/
theorem C5_length_order_empty (data : List Observation) (W : ℤ)
    (hW : 1 ≤ W) :
    (calculateMovingAverage data W).length = data.length ∧
    List.Pairwise (fun p q : SmoothedPoint =>
      p.obs.date_generated ≤ q.obs.date_generated)
      (calculateMovingAverage data W) ∧
    (data = [] → calculateMovingAverage data W = []) := by
  refine ⟨calcMA_length data W, ?_, ?_⟩
  · have h := sortByDate_pairwise data
    rw [← calcMA_map_obs data W] at h
    exact (List.pairwise_map (f := SmoothedPoint.obs)).mp h
  · intro h
    subst h
    simp [calculateMovingAverage, sortByDate, List.mapIdx_nil]

/-- C5 witness: the C5 theorem applied to the concrete 10-element input
at window 7. -/
theorem C5_length_order_empty_witness :
    (calculateMovingAverage c7Input 7).length = c7Input.length ∧
    List.Pairwise (fun p q : SmoothedPoint =>
      p.obs.date_generated ≤ q.obs.date_generated)
      (calculateMovingAverage c7Input 7) ∧
    (c7Input = [] → calculateMovingAverage c7Input 7 = []) :=
  C5_length_order_empty c7Input 7 (by norm_num)

/-- C6 (amended): with window 1 the PulseDashboard transform yields the
raw values rounded to three decimal digits — not the raw values exactly;
equality holds only when a raw value has at most three decimal digits
(see the counterexample). -/
theorem C6_window_one_rounded_identity (data : List Observation) :
    (calculateMovingAverage data 1).map SmoothedPoint.ma_consensus =
      (sortByDate data).map (fun o => round3 o.consensus_value) ∧
    (calculateMovingAverage data 1).map SmoothedPoint.ma_attention =
      (sortByDate data).map (fun o => round3 o.attention_value) := by
  constructor <;>
  · apply List.ext_getElem
    · simp [calcMA_length, sortByDate_length]
    · intro n h1 h2
      have hn : n < (sortByDate data).length := by
        simpa using h2
      simp only [List.getElem_map, calculateMovingAverage, List.getElem_mapIdx]
      rw [if_neg (by omega)]
      have hstart : ((n : ℤ) - 1 + 1).toNat = n := by omega
      have hstop : ((n : ℤ) + 1).toNat = n + 1 := by omega
      simp only [jsSlice, hstart, hstop]
      rw [List.drop_eq_getElem_cons hn]
      have htake : n + 1 - n = 1 := by omega
      rw [htake, List.take_succ_cons, List.take_zero]
      simp [foldl_add_key]

/-- C6 counterexample: with window 1 on the single observation with raw
consensus value `0.1234` the output smoothed consensus is the rounded
value `0.123`, not the raw value — `smoothed == raw` fails. -/
theorem C6_counterexample_window_one_rounds :
    (calculateMovingAverage [c6Obs] 1).map SmoothedPoint.ma_consensus =
      [123/1000] ∧
    [c6Obs].map Observation.consensus_value = [617/5000] ∧
    (123/1000 : ℚ) ≠ 617/5000 := by
  refine ⟨?_, by simp [c6Obs, mkObs], by norm_num⟩
  have hs : sortByDate [c6Obs] = [c6Obs] := sortByDate_eq_self (by decide)
  simp only [calculateMovingAverage, hs]
  simp [c6Obs, mkObs, jsSlice, List.mapIdx_cons, round3, round_eq]
  norm_num

/-- C7: the spec's concrete scenario — 10 consecutive daily observations
with consensus values 0.1 … 1.0 and window 7: the smoothed consensus is
0.4 at index 6 and 0.7 at index 9, and the first six smoothed values are
the raw values 0.1 … 0.6 unchanged. -/
theorem C7_concrete_scenario :
    ((calculateMovingAverage c7Input 7).map SmoothedPoint.ma_consensus)[6]? =
      some (4/10) ∧
    ((calculateMovingAverage c7Input 7).map SmoothedPoint.ma_consensus)[9]? =
      some (7/10) ∧
    ((calculateMovingAverage c7Input 7).map SmoothedPoint.ma_consensus).take 6 =
      [1/10, 2/10, 3/10, 4/10, 5/10, 6/10] := by
  have hfull :
      (calculateMovingAverage c7Input 7).map SmoothedPoint.ma_consensus =
        [1/10, 2/10, 3/10, 4/10, 5/10, 6/10, 4/10, 5/10, 6/10, 7/10] := by
    have hs : sortByDate c7Input = c7Input := sortByDate_eq_self (by decide)
    simp only [calculateMovingAverage, hs]
    simp [c7Input, mkObs, jsSlice, List.mapIdx_cons, List.mapIdx_nil, round3,
      round_eq]
    norm_num
  rw [hfull]
  norm_num

/-- C8: at each of the three classification sites in the rendering layer
— the PulseDashboard tooltip, the proposition card, and the
PropositionDetail page (whose chart stores the smoothed consensus on the
percent scale) — a point with smoothed consensus `x` is classified
"majority" exactly when `x ≥ 0.5`, so exactly 0.5 counts as majority; a
missing smoothed value on the detail page classifies as non-majority. -/
theorem C8_majority_iff_half (x : ℚ) :
    (isMajorityTooltip x = true ↔ 1/2 ≤ x) ∧
    (isMajorityCard x = true ↔ 1/2 ≤ x) ∧
    (isMajorityDetail (some (detailPercent x)) = true ↔ 1/2 ≤ x) ∧
    isMajorityDetail none = false := by
  refine ⟨?_, ?_, ?_, rfl⟩ <;>
    simp [isMajorityTooltip, isMajorityCard, isMajorityDetail, detailPercent] <;>
    constructor <;> intro h <;> linarith

/-- C9: frame property of the PulseDashboard transform — the output
elements carry exactly the input observations (every field, the opaque
rationale fields included, unchanged) in sorted order: projecting the
retained observation out of the output gives the date-sorted input, a
permutation of the input; both smoothed fields are total (never missing)
fields of every output element by construction of `SmoothedPoint`. -/
theorem C9_frame_preservation (data : List Observation) (W : ℤ)
    (hW : 1 ≤ W) :
    (calculateMovingAverage data W).map SmoothedPoint.obs = sortByDate data ∧
    ((calculateMovingAverage data W).map SmoothedPoint.obs).Perm data :=
  ⟨calcMA_map_obs data W, (calcMA_map_obs data W) ▸ sortByDate_perm data⟩

/-- C9 witness: the C9 theorem applied to the concrete 10-element input
at window 7. -/
theorem C9_frame_preservation_witness :
    (calculateMovingAverage c7Input 7).map SmoothedPoint.obs =
      sortByDate c7Input ∧
    ((calculateMovingAverage c7Input 7).map SmoothedPoint.obs).Perm c7Input :=
  C9_frame_preservation c7Input 7 (by norm_num)

/-- C10: non-mutation of the PulseDashboard transform, over the explicit
heap model — (1) every heap cell that existed before the call, the
caller's observation objects included, is unchanged after it (the heap is
only extended); (2) every output reference is fresh (allocated past the
old heap end); (3) the values read back through the output references are
exactly the pure transform of the values read through the input
references; (4) hence a second call on the same untouched input array
returns results equal, value for value, to the first call's. -/
theorem C10_non_mutation (h : List HVal) (refs : List ℕ) (W : ℤ) :
    ((calculateMovingAverageHeap h refs W).1.take h.length = h) ∧
    (∀ r ∈ (calculateMovingAverageHeap h refs W).2, h.length ≤ r) ∧
    ((calculateMovingAverageHeap h refs W).2.map
        (derefPt (calculateMovingAverageHeap h refs W).1) =
      calculateMovingAverage (refs.map (derefObs h)) W) ∧
    ((∀ r ∈ refs, r < h.length) →
      (calculateMovingAverageHeap
          (calculateMovingAverageHeap h refs W).1 refs W).2.map
        (derefPt (calculateMovingAverageHeap
          (calculateMovingAverageHeap h refs W).1 refs W).1) =
      (calculateMovingAverageHeap h refs W).2.map
        (derefPt (calculateMovingAverageHeap h refs W).1)) := by
  refine ⟨?_, ?_, calcMAHeap_readout h refs W, ?_⟩
  · simp [calculateMovingAverageHeap, List.take_left]
  · intro r hr
    simp only [calculateMovingAverageHeap, List.mem_map, List.mem_range] at hr
    obtain ⟨i, _, rfl⟩ := hr
    exact Nat.le_add_right _ _
  · intro hvalid
    rw [calcMAHeap_readout, calcMAHeap_readout h refs W]
    have hmap : refs.map (derefObs (calculateMovingAverageHeap h refs W).1) =
        refs.map (derefObs h) := by
      apply List.map_congr_left
      intro r hr
      simp only [calculateMovingAverageHeap]
      exact derefObs_append_of_lt h _ r (hvalid r hr)
    rw [hmap]

/-- C10 witness: the C10 theorem applied to a one-cell heap, the
singleton reference array `[0]` and window 7, with the validity
hypothesis of the repeated-call conjunct discharged. -/
theorem C10_non_mutation_witness :
    ((calculateMovingAverageHeap c10Heap [0] 7).1.take c10Heap.length =
      c10Heap) ∧
    (∀ r ∈ (calculateMovingAverageHeap c10Heap [0] 7).2,
      c10Heap.length ≤ r) ∧
    ((calculateMovingAverageHeap c10Heap [0] 7).2.map
        (derefPt (calculateMovingAverageHeap c10Heap [0] 7).1) =
      calculateMovingAverage ([0].map (derefObs c10Heap)) 7) ∧
    ((calculateMovingAverageHeap
        (calculateMovingAverageHeap c10Heap [0] 7).1 [0] 7).2.map
      (derefPt (calculateMovingAverageHeap
        (calculateMovingAverageHeap c10Heap [0] 7).1 [0] 7).1) =
      (calculateMovingAverageHeap c10Heap [0] 7).2.map
        (derefPt (calculateMovingAverageHeap c10Heap [0] 7).1)) := by
  obtain ⟨h1, h2, h3, h4⟩ := C10_non_mutation c10Heap [0] 7
  exact ⟨h1, h2, h3, h4 (by decide)⟩
